import Mathlib

/-!
Shallow embedding of the wallet-connection component in
src/vite-project/src/App.jsx (React + ethers v6).

The component keeps one record of UI state (the Session of the spec):
provider handle, signer handle, address, balance string, chain id in two
encodings, last error message and a connecting flag.  All interaction with
the injected wallet and with the ethers library goes through explicit
parameters (structures Wallet and Ethers below), so every operation of the
component becomes a pure function on Session.

Thrown JavaScript errors are modelled with the Except monad; a value of
type WalletError carries the optional numeric code, the optional message
field and the String rendering of the thrown object, so that the source
expression err.message with a fallback to the String rendering can be
translated faithfully (errMsg below).  Code paths wrapped in try/catch in
the source are total functions Session to Session built from a Try body
that returns Except; the body also carries the Session at the moment of
the throw, because field updates made before the throw survive it.

React setState calls are modelled as sequential record updates: within one
handler they are applied in program order and nothing observes an
intermediate state, which matches the batching the source relies on.
-/

namespace WalletApp

/-- A thrown wallet or library error: optional numeric code, optional
message field (none models an undefined message) and the string rendering
of the whole error object. -/
structure WalletError where
  code : Option Int := none
  message : Option String := none
  str : String := ""
deriving Repr, DecidableEq

/-- Translation of the source pattern err.message with a fallback to the
string rendering of err when the message field is undefined or empty. -/
def errMsg (e : WalletError) : String :=
  match e.message with
  | some m => if m = "" then e.str else m
  | none => e.str

/-- Opaque parameter object handed to the add-chain wallet request; the
component never inspects it. -/
abbrev AddChainParams := String

/-- The injected wallet provider (window.ethereum plus the reads the
component performs through the ethers BrowserProvider wrapped around it).
Modelled as data: each request either succeeds with its result or throws a
WalletError. -/
structure Wallet where
  present : Bool
  requestAccounts : Except WalletError (List String)
  getNetwork : Except WalletError Nat
  listAccounts : Except WalletError (List String)
  getBalance : String → Except WalletError Nat
  switchChain : String → Except WalletError Unit
  addChain : AddChainParams → Except WalletError Unit

/-- The piece of the ethers library the component calls with data-dependent
results: getAddress, the checksum normalization, which throws on an invalid
address string. -/
structure Ethers where
  getAddress : String → Except WalletError String

/-- The Session of the spec: the React state of the component.  Provider
and signer handles are opaque, so they are modelled as Option Unit. -/
structure Session where
  provider : Option Unit := none
  signer : Option Unit := none
  address : Option String := none
  balance : Option String := none
  chainId : Option Int := none
  chainHex : Option String := none
  error : Option String := none
  connecting : Bool := false
deriving Repr, DecidableEq

/-- The empty Session created on page load. -/
def emptySession : Session := {}

/-! ## Hex printing and parsing

chainId.toString(16) of the source, and parseInt(hexChain, 16) used by the
chain-changed handler. -/

/-- Lowercase hex digit for a value below 16, as produced by the JavaScript
number-to-string conversion with radix 16. -/
def hexDigitChar (d : Nat) : Char :=
  if d < 10 then Char.ofNat (48 + d) else Char.ofNat (87 + d)

/-- Digits of n in base 16, most significant first, prepended to acc. -/
def toHexCore (n : Nat) (acc : List Char) : List Char :=
  if h : n = 0 then acc
  else toHexCore (n / 16) (hexDigitChar (n % 16) :: acc)
termination_by n
decreasing_by exact Nat.div_lt_self (Nat.pos_of_ne_zero h) (by decide)

/-- JavaScript number-to-string conversion with radix 16 (lowercase, and
the single digit 0 for zero). -/
def natToHexStr (n : Nat) : String :=
  if n = 0 then "0" else String.mk (toHexCore n [])

/-- Value of a hex digit character, accepting both letter cases as
parseInt does. -/
def hexVal (c : Char) : Option Nat :=
  if '0' ≤ c ∧ c ≤ '9' then some (c.toNat - 48)
  else if 'a' ≤ c ∧ c ≤ 'f' then some (c.toNat - 87)
  else if 'A' ≤ c ∧ c ≤ 'F' then some (c.toNat - 55)
  else none

/-- Consume the longest leading run of hex digits, folding them onto an
accumulator; stops at the first character that is not a hex digit and
ignores the rest, as parseInt does. -/
def parseHexAcc : List Char → Nat → Nat
  | [], a => a
  | c :: r, a =>
    match hexVal c with
    | some d => parseHexAcc r (a * 16 + d)
    | none => a

/-- Longest leading run of hex digits as a number; none when the first
character is already invalid (parseInt returns NaN then, modelled as
none). -/
def parseHexDigits : List Char → Option Nat
  | [] => none
  | c :: r =>
    match hexVal c with
    | some d => some (parseHexAcc r d)
    | none => none

/-- Strip one leading 0x or 0X marker, as parseInt with radix 16 does. -/
def stripHexMark : List Char → List Char
  | '0' :: 'x' :: r => r
  | '0' :: 'X' :: r => r
  | l => l

/-- parseInt(s, 16) on a character list: optional sign, optional 0x
marker, then the longest run of hex digits; none models NaN. -/
def parseIntHexL : List Char → Option Int
  | '-' :: r => (parseHexDigits (stripHexMark r)).map (fun n => -(n : Int))
  | '+' :: r => (parseHexDigits (stripHexMark r)).map (fun n => (n : Int))
  | l => (parseHexDigits (stripHexMark l)).map (fun n => (n : Int))

/-- parseInt(s, 16) of the source (leading whitespace, which the wallet
never sends in a chain id payload, is not modelled). -/
def parseIntHex (s : String) : Option Int :=
  parseIntHexL s.data

/-- Number of base-16 digits of n (one digit for values below 16). -/
def hexLen (n : Nat) : Nat :=
  if h : n < 16 then 1 else hexLen (n / 16) + 1
termination_by n
decreasing_by exact Nat.div_lt_self (by omega) (by decide)

/-! ## ethers formatEther -/

/-- Left-pad a string with zero characters to the given length. -/
def padZeros (k : Nat) (s : String) : String :=
  String.mk (List.replicate (k - s.length) '0') ++ s

/-- Drop trailing zero characters but keep at least one digit, as the
ethers fixed-point formatter does with the fractional part. -/
def trimZerosKeepOne (s : String) : String :=
  let l := (s.data.reverse.dropWhile (fun c => c == '0')).reverse
  if l.isEmpty then "0" else String.mk l

/-- ethers formatEther: wei value to a decimal string in whole ether,
with the fractional part trimmed of trailing zeros but never empty, so
zero formats as the string 0.0 . -/
def formatEther (wei : Nat) : String :=
  let ip := wei / 10 ^ 18
  let fr := wei % 10 ^ 18
  toString ip ++ "." ++ trimZerosKeepOne (padZeros 18 (toString fr))

/-! ## The component operations -/

/-- Body of the try block of connect (source lines 119 to 137), entered
with the wallet present.  On a throw it returns the error together with
the Session as already mutated before the throw. -/
def connectTry (eth : Ethers) (w : Wallet) (s : Session) :
    Except (WalletError × Session) Session :=
  match w.requestAccounts with
  | .error e => .error (e, s)
  | .ok accounts =>
    match accounts with
    | [] => .ok s
    | a :: _ =>
      let s2 : Session := { s with provider := some (), signer := some () }
      match eth.getAddress a with
      | .error e => .error (e, s2)
      | .ok addr =>
        let s3 : Session := { s2 with address := some addr }
        match w.getNetwork with
        | .error e => .error (e, s3)
        | .ok n =>
          .ok { s3 with chainId := some (n : Int),
                        chainHex := some ("0x" ++ natToHexStr n) }

/-- connect (source lines 116 to 143): clear the error, raise the
connecting flag, handle the missing-wallet case with a confirm dialog
(a browser side effect that never touches Session), otherwise run the
body; the catch records the message, the finally clears connecting. -/
def connect (eth : Ethers) (w : Wallet) (s : Session) : Session :=
  let s1 : Session := { s with error := none, connecting := true }
  if w.present = false then
    { s1 with connecting := false }
  else
    match connectTry eth w s1 with
    | .ok s2 => { s2 with connecting := false }
    | .error (e, s2) => { s2 with error := some (errMsg e), connecting := false }

/-- Body of the try block of initProvider (source lines 39 to 53), entered
with the wallet present. -/
def initProviderTry (eth : Ethers) (w : Wallet) (s : Session) :
    Except (WalletError × Session) Session :=
  let s1 : Session := { s with provider := some () }
  match w.getNetwork with
  | .error e => .error (e, s1)
  | .ok n =>
    let s2 : Session := { s1 with chainId := some (n : Int),
                                  chainHex := some ("0x" ++ natToHexStr n) }
    match w.listAccounts with
    | .error e => .error (e, s2)
    | .ok accounts =>
      match accounts with
      | [] => .ok s2
      | a :: _ =>
        let s3 : Session := { s2 with signer := some () }
        match eth.getAddress a with
        | .error e => .error (e, s3)
        | .ok addr => .ok { s3 with address := some addr }

/-- initProvider (source lines 32 to 54): absent wallet records the
no-wallet message and clears the handles; otherwise the body runs under a
catch-all that records the message. -/
def initProvider (eth : Ethers) (w : Wallet) (s : Session) : Session :=
  if w.present = false then
    { s with error := some "No injected wallet found (install MetaMask).",
             provider := none, signer := none }
  else
    match initProviderTry eth w s with
    | .ok s' => s'
    | .error (e, s') => { s' with error := some (errMsg e) }

/-- The accounts-changed handler (source lines 60 to 71).  It runs under
no try/catch of its own, so a throw from the checksum normalization
escapes; hence the Except result type. -/
def onAccountsChanged (eth : Ethers) (accs : List String) (s : Session) :
    Except (WalletError × Session) Session :=
  match accs with
  | [] => .ok { s with address := none, signer := none, balance := none }
  | a :: _ =>
    match eth.getAddress a with
    | .error e => .error (e, s)
    | .ok addr => .ok { s with address := some addr, signer := some () }

/-- The chain-changed handler (source lines 72 to 78): store the payload
and its base-16 parse into the chain fields, then re-run initProvider. -/
def onChainChanged (eth : Ethers) (w : Wallet) (hexChain : String)
    (s : Session) : Session :=
  initProvider eth w { s with chainHex := some hexChain,
                              chainId := parseIntHex hexChain }

/-- switchNetwork (source lines 148 to 173): absent wallet records a
message; a failed switch with the distinct code 4902 and parameters
supplied triggers the add-chain request, whose own failure is recorded;
every other failure is recorded directly.  No branch touches the chain
fields of Session. -/
def switchNetwork (w : Wallet) (hexChainId : String)
    (addChainParams : Option AddChainParams) (s : Session) : Session :=
  if w.present = false then
    { s with error := some "No wallet available to switch network." }
  else
    match w.switchChain hexChainId with
    | .ok _ => s
    | .error se =>
      match addChainParams with
      | some p =>
        if se.code = some 4902 then
          match w.addChain p with
          | .ok _ => s
          | .error ae => { s with error := some (errMsg ae) }
        else { s with error := some (errMsg se) }
      | none => { s with error := some (errMsg se) }

/-! ## Balance refresh effect (source lines 93 to 113)

The effect re-runs whenever provider or address change.  React first runs
the cleanup of the previous run, which clears that run's mounted flag,
then starts a new run with a fresh flag.  Equivalently, each run carries a
generation number and the mounted flag of run g is true exactly while g is
the current generation; the commit points of loadBalance check the flag
after the asynchronous balance read resolves.  The resolution outcome is
carried by the resolve event itself, so the theorems quantify over every
possible wallet answer and every interleaving. -/

/-- State of the balance-refresh subsystem: the two dependencies of the
effect, the committed balance string, the error field, and the generation
of the newest effect run. -/
structure BalSt where
  addr : Option String
  prov : Bool
  balance : Option String
  error : Option String
  gen : Nat
deriving Repr, DecidableEq

/-- A dependency change: the cleanup invalidates the previous run (gen
grows), then the new run's synchronous part executes; with an absent
provider or address it clears the balance and issues no query. -/
def stepDeps (st : BalSt) (a : Option String) (p : Bool) : BalSt :=
  let st1 : BalSt := { st with addr := a, prov := p, gen := st.gen + 1 }
  if p = false ∨ a = none then { st1 with balance := none } else st1

/-- Resolution of the query started by run g: the mounted check drops the
result when g is no longer the current generation; otherwise a successful
read commits the formatted balance and a failed read records the error. -/
def stepResolve (st : BalSt) (g : Nat) (res : Except WalletError Nat) : BalSt :=
  if g ≠ st.gen then st
  else
    match res with
    | .ok b => { st with balance := some (formatEther b) }
    | .error e => { st with error := some (errMsg e) }

/-- Uncurried resolution step, for folding a list of resolve events. -/
def stepResolveP (st : BalSt) (q : Nat × Except WalletError Nat) : BalSt :=
  stepResolve st q.1 q.2

/-! ## Display formatter (source lines 243 to 248)

formatNumber converts the string through the JavaScript Number
constructor, renders it with toFixed(6) and trims with the replacement of
the first match of an optional dot followed by a run of zeros reaching the
end of the string.  The numeric conversion is modelled exactly: a decimal
literal string (optional sign, digits, optional dot, optional exponent;
the empty string gives zero) denotes sign, mantissa and a power-of-ten
exponent, and every other string gives none, the model of NaN.  The
float64 rounding JavaScript applies on conversion is not modelled; it is
value-preserving on the inputs the theorems below quantify over. -/

/-- Value of a decimal digit character. -/
def digVal (c : Char) : Option Nat :=
  if '0' ≤ c ∧ c ≤ '9' then some (c.toNat - 48) else none

/-- Split a character list into its longest leading run of decimal digits
and the rest. -/
def takeDigits : List Char → List Nat × List Char
  | [] => ([], [])
  | c :: r =>
    match digVal c with
    | some d =>
      let p := takeDigits r
      (d :: p.1, p.2)
    | none => ([], c :: r)

/-- Number denoted by a list of decimal digit values, most significant
first. -/
def digsToNat (ds : List Nat) : Nat :=
  ds.foldl (fun a d => a * 10 + d) 0

/-- An unsigned decimal number filling the whole list, or none. -/
def parseDecAll (l : List Char) : Option Nat :=
  let p := takeDigits l
  if p.2.isEmpty ∧ ¬ p.1.isEmpty then some (digsToNat p.1) else none

/-- A signed decimal integer filling the whole list, or none. -/
def parseSignedDec (l : List Char) : Option Int :=
  match l with
  | '-' :: r => (parseDecAll r).map (fun n => -(n : Int))
  | '+' :: r => (parseDecAll r).map (fun n => (n : Int))
  | _ => (parseDecAll l).map (fun n => (n : Int))

/-- The exponent part of a numeric literal: empty means exponent zero,
otherwise the letter e or E followed by a signed decimal integer. -/
def parseExp : List Char → Option Int
  | [] => some 0
  | 'e' :: r => parseSignedDec r
  | 'E' :: r => parseSignedDec r
  | _ => none

/-- The exact value of a decimal numeric literal: sign, mantissa and a
power-of-ten exponent; the denoted number is mant times ten to the exp,
negated when neg is set. -/
structure DecNum where
  neg : Bool
  mant : Nat
  exp : Int
deriving Repr, DecidableEq

/-- The unsigned part of a decimal numeric literal: digits, an optional
dot with further digits, and an optional exponent; at least one digit must
be present around the dot.  Result: mantissa and exponent. -/
def strNumCore (l : List Char) : Option (Nat × Int) :=
  let p := takeDigits l
  match p.2 with
  | '.' :: r2 =>
    let q := takeDigits r2
    if p.1.isEmpty ∧ q.1.isEmpty then none
    else (parseExp q.2).map (fun e => (digsToNat (p.1 ++ q.1), e - (q.1.length : Int)))
  | _ =>
    if p.1.isEmpty then none
    else (parseExp p.2).map (fun e => (digsToNat p.1, e))

/-- The JavaScript Number constructor on a string, restricted to decimal
literals: optional sign, then the unsigned literal; the empty string
converts to zero.  Hex, octal, binary and infinity literal forms and
surrounding whitespace are outside the model; none models NaN. -/
def strNum (s : String) : Option DecNum :=
  match s.data with
  | [] => some { neg := false, mant := 0, exp := 0 }
  | '-' :: r => (strNumCore r).map (fun p => { neg := true, mant := p.1, exp := p.2 })
  | '+' :: r => (strNumCore r).map (fun p => { neg := false, mant := p.1, exp := p.2 })
  | l => (strNumCore l).map (fun p => { neg := false, mant := p.1, exp := p.2 })

/-- The magnitude of the value scaled by ten to the sixth and rounded to
the nearest integer, half upward: the digit string toFixed(6) prints. -/
def roundTo6 (d : DecNum) : Nat :=
  match d.exp + 6 with
  | .ofNat k => d.mant * 10 ^ k
  | .negSucc k => (2 * d.mant + 10 ^ (k + 1)) / (2 * 10 ^ (k + 1))

/-- toFixed(6): the sign marker for a strictly negative input, then the
magnitude rounded to six fraction digits, half away from zero, rendered
with exactly six fraction digits.  A zero mantissa never prints a sign,
which matches toFixed on negative floating-point zero. -/
def toFixed6 (d : DecNum) : String :=
  let sgn := if d.neg && d.mant != 0 then "-" else ""
  let N : Nat := roundTo6 d
  sgn ++ toString (N / 1000000) ++ "." ++ padZeros 6 (toString (N % 1000000))

/-- Does the list consist of one or more zero characters? -/
def zRun (l : List Char) : Bool :=
  !l.isEmpty && l.all (fun c => c == '0')

/-- Does the pattern, an optional dot followed by a run of zeros anchored
at the end, match the whole remaining list? -/
def zMatch (l : List Char) : Bool :=
  zRun l ||
    (match l with
     | '.' :: r => zRun r
     | _ => false)

/-- Replacement of the first (leftmost) match of the trimming pattern by
the empty string: scan left to right and cut at the first position whose
whole remainder matches. -/
def zTrim : List Char → List Char
  | [] => []
  | c :: r => if zMatch (c :: r) then [] else c :: zTrim r

/-- String wrapper of the trimming replacement. -/
def trimTrail (s : String) : String :=
  String.mk (zTrim s.data)

/-- formatNumber of the source: an unparseable string is returned
untouched, otherwise the value is rendered with toFixed(6) and the
trailing-zero pattern is trimmed once. -/
def formatNumber (n : String) : String :=
  match strNum n with
  | none => n
  | some x => trimTrail (toFixed6 x)

/-! ## Derived predicates -/

/-- The chain fields of t either are exactly those of s, or were both
rewritten from one network read n (hex rendering and numeric value of the
same chain). -/
def chainFrom (s t : Session) : Prop :=
  (t.chainHex = s.chainHex ∧ t.chainId = s.chainId) ∨
  ∃ n : Nat, t.chainHex = some ("0x" ++ natToHexStr n) ∧ t.chainId = some (n : Int)

/-! ## Concrete environments used by witnesses and counterexamples -/

/-- A user-rejection error as MetaMask raises it. -/
def rejectErr : WalletError :=
  { code := some 4001, message := some "User rejected the request.",
    str := "Error: User rejected the request." }

/-- The throw of the ethers checksum normalization on an invalid address
string. -/
def badAddrErr : WalletError :=
  { code := none, message := some "invalid address",
    str := "TypeError: invalid address" }

/-- The distinct chain-unrecognized error of the switch request. -/
def unrecognizedErr : WalletError :=
  { code := some 4902, message := some "Unrecognized chain ID",
    str := "Error: Unrecognized chain ID" }

/-- A failure of the add-chain request. -/
def addFailErr : WalletError :=
  { code := some 4001, message := some "User rejected chain add.",
    str := "Error: User rejected chain add." }

/-- A normalization step that marks its input visibly. -/
def ethOk : Ethers := { getAddress := fun a => .ok ("chk:" ++ a) }

/-- A normalization step that always throws. -/
def ethBad : Ethers := { getAddress := fun _ => .error badAddrErr }

/-- No injected wallet. -/
def wAbsent : Wallet :=
  { present := false, requestAccounts := .ok [], getNetwork := .ok 1,
    listAccounts := .ok [], getBalance := fun _ => .ok 0,
    switchChain := fun _ => .ok (), addChain := fun _ => .ok () }

/-- A wallet that authorizes one account on chain 1. -/
def wHappy : Wallet :=
  { wAbsent with present := true, requestAccounts := .ok ["0xabc"] }

/-- A wallet whose authorization request is rejected by the user. -/
def wReject : Wallet :=
  { wAbsent with present := true, requestAccounts := .error rejectErr }

/-- A wallet that does not recognize the requested chain. -/
def wNoSwitch : Wallet :=
  { wAbsent with present := true, switchChain := fun _ => .error unrecognizedErr }

/-- A wallet that rejects both the switch and the add-chain request. -/
def wNoAdd : Wallet :=
  { wNoSwitch with addChain := fun _ => .error addFailErr }

/-- A Session carrying a stale error message. -/
def sPrev : Session := { emptySession with error := some "previous failure" }

/-- A connected Session. -/
def sConn : Session :=
  { emptySession with
    provider := some (), signer := some (),
    address := some "0xold", balance := some "1.5",
    chainId := some 1, chainHex := some "0x1" }

/-- A balance-refresh state whose newest effect run is generation 1. -/
def balSt1 : BalSt :=
  { addr := some "0xnew", prov := true, balance := none, error := none, gen := 1 }

/-! ## Helper lemmas: hex round trip -/

theorem hexVal_hexDigitChar : ∀ d < 16, hexVal (hexDigitChar d) = some d := by decide

theorem parseHexAcc_toHexCore (n : Nat) (hn : 0 < n) (acc : List Char) (a : Nat) :
    parseHexAcc (toHexCore n acc) a = parseHexAcc acc (a * 16 ^ hexLen n + n) := by
  rw [toHexCore, dif_neg hn.ne']
  by_cases h16 : n < 16
  · have hdiv : n / 16 = 0 := Nat.div_eq_of_lt h16
    have hmod : n % 16 = n := Nat.mod_eq_of_lt h16
    have hL : hexLen n = 1 := by rw [hexLen]; simp [h16]
    rw [hdiv, hmod, toHexCore, dif_pos rfl, hL]
    simp [parseHexAcc, hexVal_hexDigitChar n h16]
  · have hpos : 0 < n / 16 := Nat.div_pos (Nat.le_of_not_lt h16) (by decide)
    have hmod : n % 16 < 16 := Nat.mod_lt _ (by decide)
    rw [parseHexAcc_toHexCore (n / 16) hpos (hexDigitChar (n % 16) :: acc) a]
    have hL : hexLen n = hexLen (n / 16) + 1 := by rw [hexLen]; simp [h16]
    simp only [parseHexAcc, hexVal_hexDigitChar (n % 16) hmod]
    congr 1
    rw [hL, pow_succ]
    have h2 : n / 16 * 16 + n % 16 = n := by omega
    calc (a * 16 ^ hexLen (n / 16) + n / 16) * 16 + n % 16
        = a * (16 ^ hexLen (n / 16) * 16) + (n / 16 * 16 + n % 16) := by ring
      _ = a * (16 ^ hexLen (n / 16) * 16) + n := by rw [h2]
termination_by n
decreasing_by exact Nat.div_lt_self hn (by decide)

theorem parseHexDigits_toHexCore (n : Nat) (hn : 0 < n) (acc : List Char) :
    parseHexDigits (toHexCore n acc) = some (parseHexAcc (toHexCore n acc) 0) := by
  rw [toHexCore, dif_neg hn.ne']
  by_cases h16 : n < 16
  · have hdiv : n / 16 = 0 := Nat.div_eq_of_lt h16
    have hmod : n % 16 = n := Nat.mod_eq_of_lt h16
    rw [hdiv, hmod, toHexCore, dif_pos rfl]
    simp [parseHexDigits, parseHexAcc, hexVal_hexDigitChar n h16]
  · have hpos : 0 < n / 16 := Nat.div_pos (Nat.le_of_not_lt h16) (by decide)
    exact parseHexDigits_toHexCore (n / 16) hpos (hexDigitChar (n % 16) :: acc)
termination_by n
decreasing_by exact Nat.div_lt_self hn (by decide)

theorem parseHexDigits_toHexCore_nil (n : Nat) (hn : 0 < n) :
    parseHexDigits (toHexCore n []) = some n := by
  rw [parseHexDigits_toHexCore n hn [], parseHexAcc_toHexCore n hn [] 0]
  simp [parseHexAcc]

/-- The base-16 printing of the source round-trips through its base-16
parsing: parseInt with radix 16 recovers the chain id that was rendered
with toString(16) behind a 0x marker. -/
theorem parseIntHex_roundTrip (n : Nat) : parseIntHex ("0x" ++ natToHexStr n) = some (n : Int) := by
  by_cases h : n = 0
  · subst h; decide
  · have hp : 0 < n := Nat.pos_of_ne_zero h
    have hdata : ("0x" ++ natToHexStr n).data = '0' :: 'x' :: toHexCore n [] := by
      rw [natToHexStr, if_neg h]
      rfl
    rw [parseIntHex, hdata]
    show (parseHexDigits (toHexCore n [])).map (fun m => (m : Int)) = some (n : Int)
    rw [parseHexDigits_toHexCore_nil n hp]
    rfl

/-! ## Helper lemmas: chain fields after reconciliation -/

theorem initProvider_chainFrom (eth : Ethers) (w : Wallet) (s : Session) :
    chainFrom s (initProvider eth w s) := by
  unfold initProvider
  by_cases hp : w.present = false
  · rw [if_pos hp]; left; exact ⟨rfl, rfl⟩
  · rw [if_neg hp]
    unfold initProviderTry
    rcases hn : w.getNetwork with e | n
    · simp only [hn]; left; exact ⟨rfl, rfl⟩
    · simp only [hn]
      rcases ha : w.listAccounts with e | accs
      · simp only [ha]; right; exact ⟨n, rfl, rfl⟩
      · simp only [ha]
        cases accs with
        | nil => right; exact ⟨n, rfl, rfl⟩
        | cons a rest =>
          rcases hg : eth.getAddress a with e | addr
          · simp only [hg]; right; exact ⟨n, rfl, rfl⟩
          · simp only [hg]; right; exact ⟨n, rfl, rfl⟩

/-! ## Helper lemmas: switchNetwork result shapes -/

theorem switchNetwork_cases (w : Wallet) (hex : String)
    (params : Option AddChainParams) (s : Session) :
    switchNetwork w hex params s = s ∨
    ∃ m, switchNetwork w hex params s = { s with error := some m } := by
  unfold switchNetwork
  by_cases hp : w.present = false
  · rw [if_pos hp]; right; exact ⟨_, rfl⟩
  · rw [if_neg hp]
    rcases hsw : w.switchChain hex with e | u
    · rcases params with _ | p
      · right; exact ⟨errMsg e, by simp [hsw]⟩
      · by_cases hc : e.code = some 4902
        · rcases haa : w.addChain p with e2 | u2
          · right; exact ⟨errMsg e2, by simp [hsw, hc, haa]⟩
          · left; simp [hsw, hc, haa]
        · right; exact ⟨errMsg e, by simp [hsw, hc]⟩
    · left; simp [hsw]

/-! ## Helper lemmas: balance refresh -/

theorem stepResolve_stale (st : BalSt) (g : Nat) (res : Except WalletError Nat)
    (h : g ≠ st.gen) : stepResolve st g res = st := by
  unfold stepResolve; rw [if_pos h]

theorem stepResolve_gen (st : BalSt) (g : Nat) (res : Except WalletError Nat) :
    (stepResolve st g res).gen = st.gen := by
  unfold stepResolve
  split
  · rfl
  · rcases res with e | b <;> rfl

theorem foldl_stale (st : BalSt) (L : List (Nat × Except WalletError Nat))
    (h : ∀ q ∈ L, q.1 ≠ st.gen) : L.foldl stepResolveP st = st := by
  induction L with
  | nil => rfl
  | cons q L ih =>
    rw [List.foldl_cons]
    have h1 : stepResolveP st q = st := stepResolve_stale st q.1 q.2 (h q (by simp))
    rw [h1]
    exact ih (fun p hp => h p (by simp [hp]))

theorem stepDeps_gen (st : BalSt) (a : Option String) (p : Bool) :
    (stepDeps st a p).gen = st.gen + 1 := by
  unfold stepDeps
  split <;> rfl

/-! ## The claims -/

/-- Claim C1, amended: when no external wallet is present, connect
terminates without changing Session except that lastError is cleared to
absent (the no-wallet condition is signalled through a confirmation
dialog offering the install page, not through lastError), and connecting
is false when the call ends. -/
theorem connect_no_wallet (eth : Ethers) (w : Wallet) (s : Session)
    (hp : w.present = false) :
    connect eth w s = { s with error := none, connecting := false } := by
  simp [connect, hp]

/-- Witness for connect_no_wallet at a concrete wallet-less environment
and a Session holding a stale error message. -/
theorem connect_no_wallet_witness :
    wAbsent.present = false ∧
    connect ethOk wAbsent sPrev = { sPrev with error := none, connecting := false } :=
  ⟨rfl, connect_no_wallet ethOk wAbsent sPrev rfl⟩

/-- Counterexample to claim C1 as stated: with no wallet present and a
prior error in Session, connect leaves lastError absent; it is not set to
the no-wallet message. -/
theorem connect_no_wallet_message_cex :
    (connect ethOk wAbsent sPrev).error = none ∧
    (connect ethOk wAbsent sPrev).error ≠
      some "No injected wallet found (install MetaMask)." := by
  exact ⟨by decide, by decide⟩

/-- Claim C2, amended: failures raised during connect, initProvider,
switchNetwork and the balance query are caught at the boundary of the
call that produced them and recorded in lastError, and the
accounts-changed handler returns normally on an empty payload or when
normalization of its first entry succeeds; the handler itself wraps no
catch around the normalization, so a normalization failure propagates out
of it. -/
theorem failures_recorded (eth : Ethers) (w : Wallet) (s : Session) (hex : String)
    (st : BalSt) (e : WalletError) (a : String) (rest : List String) (addr : String) :
    (w.present = true → ∀ e' s',
        connectTry eth w { s with error := none, connecting := true } = .error (e', s') →
        connect eth w s = { s' with error := some (errMsg e'), connecting := false }) ∧
    (w.present = true → ∀ e' s', initProviderTry eth w s = .error (e', s') →
        initProvider eth w s = { s' with error := some (errMsg e') }) ∧
    stepResolve st st.gen (Except.error e) = { st with error := some (errMsg e) } ∧
    (w.present = true → ∀ e', w.switchChain hex = .error e' →
        switchNetwork w hex none s = { s with error := some (errMsg e') }) ∧
    onAccountsChanged eth [] s = .ok { s with address := none, signer := none, balance := none } ∧
    (eth.getAddress a = .ok addr →
        onAccountsChanged eth (a :: rest) s =
          .ok { s with address := some addr, signer := some () }) := by
  refine ⟨?_, ?_, ?_, ?_, rfl, ?_⟩
  · intro hp e' s' h; simp [connect, hp, h]
  · intro hp e' s' h; simp [initProvider, hp, h]
  · simp [stepResolve]
  · intro hp e' h; simp [switchNetwork, hp, h]
  · intro h; simp [onAccountsChanged, h]

/-- Witness for failures_recorded: a rejected authorization is recorded
in lastError, and a well-formed accounts payload flows through the
handler without an escaping error. -/
theorem failures_recorded_witness :
    connect ethOk wReject emptySession =
      { emptySession with error := some "User rejected the request.", connecting := false } ∧
    onAccountsChanged ethOk ["0xabc"] emptySession =
      .ok { emptySession with address := some "chk:0xabc", signer := some () } := by
  have h := failures_recorded ethOk wReject emptySession "0x1" balSt1 rejectErr "0xabc" [] "chk:0xabc"
  exact ⟨h.1 rfl rejectErr { emptySession with error := none, connecting := true } rfl,
         h.2.2.2.2.2 rfl⟩

/-- Counterexample to claim C2 as stated: the accounts-changed handler
runs under no try/catch, so when the checksum normalization of a
non-empty payload throws, the exception escapes the handler. -/
theorem accountsChanged_escape_cex :
    onAccountsChanged ethBad ["0xzz"] emptySession =
      .error (badAddrErr, emptySession) := rfl

/-- Claim C3: delivering an accounts-changed notification with an empty
payload leaves address, signerHandle and balanceEth all absent, from any
prior Session state, and no exception escapes. -/
theorem accountsChanged_empty_clears (eth : Ethers) (s : Session) :
    ∃ s', onAccountsChanged eth [] s = .ok s' ∧
      s'.address = none ∧ s'.signer = none ∧ s'.balance = none :=
  ⟨{ s with address := none, signer := none, balance := none }, rfl, rfl, rfl, rfl⟩

/-- Claim C4: when the wallet is present but the authorization request
fails, connect leaves address and signerHandle unchanged and records the
error message of the wallet in lastError. -/
theorem connect_reject_frame (eth : Ethers) (w : Wallet) (s : Session) (e : WalletError)
    (hp : w.present = true) (hr : w.requestAccounts = .error e) :
    (connect eth w s).address = s.address ∧
    (connect eth w s).signer = s.signer ∧
    (connect eth w s).error = some (errMsg e) := by
  refine ⟨?_, ?_, ?_⟩ <;> simp [connect, connectTry, hp, hr]

/-- Witness for connect_reject_frame at a concrete rejecting wallet and a
connected Session. -/
theorem connect_reject_frame_witness :
    wReject.present = true ∧ wReject.requestAccounts = .error rejectErr ∧
    (connect ethOk wReject sConn).address = sConn.address ∧
    (connect ethOk wReject sConn).signer = sConn.signer ∧
    (connect ethOk wReject sConn).error = some "User rejected the request." := by
  have h := connect_reject_frame ethOk wReject sConn rejectErr rfl rfl
  exact ⟨rfl, rfl, h.1, h.2.1, h.2.2⟩

/-- Claim C5: a successful connect with a non-empty account list stores
as address exactly the output of the standalone checksum normalization
applied to the first raw account string returned by the wallet. -/
theorem connect_success_address (eth : Ethers) (w : Wallet) (s : Session)
    (a : String) (rest : List String) (addr : String)
    (hp : w.present = true) (hr : w.requestAccounts = .ok (a :: rest))
    (hg : eth.getAddress a = .ok addr) :
    (connect eth w s).address = some addr := by
  rcases hn : w.getNetwork with e | n <;> simp [connect, connectTry, hp, hr, hg, hn]

/-- Witness for connect_success_address at a concrete approving wallet. -/
theorem connect_success_address_witness :
    wHappy.present = true ∧ wHappy.requestAccounts = .ok ["0xabc"] ∧
    ethOk.getAddress "0xabc" = .ok ("chk:" ++ "0xabc") ∧
    (connect ethOk wHappy emptySession).address = some ("chk:" ++ "0xabc") :=
  ⟨rfl, rfl, rfl,
   connect_success_address ethOk wHappy emptySession "0xabc" [] ("chk:" ++ "0xabc") rfl rfl rfl⟩

/-- Claim C6: switchNetwork never mutates the chain fields of Session,
and every failing call, including a chain-unrecognized failure with no
add-chain parameters supplied, records the underlying message in
lastError. -/
theorem switchNetwork_frame_and_errors (w : Wallet) (hex : String)
    (params : Option AddChainParams) (s : Session) :
    (switchNetwork w hex params s).chainId = s.chainId ∧
    (switchNetwork w hex params s).chainHex = s.chainHex ∧
    (w.present = false →
      switchNetwork w hex params s =
        { s with error := some "No wallet available to switch network." }) ∧
    (w.present = true → ∀ e, w.switchChain hex = .error e →
      (params = none →
        switchNetwork w hex params s = { s with error := some (errMsg e) }) ∧
      (e.code ≠ some 4902 →
        switchNetwork w hex params s = { s with error := some (errMsg e) }) ∧
      (∀ p e2, params = some p → e.code = some 4902 → w.addChain p = .error e2 →
        switchNetwork w hex params s = { s with error := some (errMsg e2) })) := by
  refine ⟨?_, ?_, ?_, ?_⟩
  · rcases switchNetwork_cases w hex params s with h | ⟨m, h⟩ <;> rw [h]
  · rcases switchNetwork_cases w hex params s with h | ⟨m, h⟩ <;> rw [h]
  · intro hp; simp [switchNetwork, hp]
  · intro hp e hsw
    refine ⟨?_, ?_, ?_⟩
    · intro hpar; subst hpar; simp [switchNetwork, hp, hsw]
    · intro hcode
      rcases params with _ | p
      · simp [switchNetwork, hp, hsw]
      · simp [switchNetwork, hp, hsw, hcode]
    · intro p e2 hpar hcode haa; subst hpar
      simp [switchNetwork, hp, hsw, hcode, haa]

/-- Witness for switchNetwork_frame_and_errors: a chain-unrecognized
failure with no parameters supplied records the message and leaves the
chain fields of a connected Session unchanged. -/
theorem switchNetwork_frame_and_errors_witness :
    (switchNetwork wNoSwitch "0x5" none sConn).chainId = sConn.chainId ∧
    (switchNetwork wNoSwitch "0x5" none sConn).chainHex = sConn.chainHex ∧
    switchNetwork wNoSwitch "0x5" none sConn =
      { sConn with error := some "Unrecognized chain ID" } := by
  have h := switchNetwork_frame_and_errors wNoSwitch "0x5" none sConn
  exact ⟨h.1, h.2.1, (h.2.2.2 rfl unrecognizedErr rfl).1 rfl⟩

/-- Claim C7: after a chain-changed notification is handled, the two
chain fields carry the same chain identifier in its two encodings: the
numeric field is exactly the base-16 parse of the stored hex field. -/
theorem chainChanged_consistent (eth : Ethers) (w : Wallet) (hexChain : String)
    (s : Session) :
    ∃ h, (onChainChanged eth w hexChain s).chainHex = some h ∧
         (onChainChanged eth w hexChain s).chainId = parseIntHex h := by
  have hc := initProvider_chainFrom eth w
      { s with chainHex := some hexChain, chainId := parseIntHex hexChain }
  unfold onChainChanged
  rcases hc with ⟨h1, h2⟩ | ⟨n, h1, h2⟩
  · exact ⟨hexChain, h1, h2⟩
  · exact ⟨"0x" ++ natToHexStr n, h1, by rw [h2]; exact (parseIntHex_roundTrip n).symm⟩

/-- Claim C8: a balance query superseded by a newer effect run never
commits: any interleaving of stale resolutions around the newest
resolution yields exactly the state the newest resolution produces, and a
dependency change makes every previously started query stale. -/
theorem balanceRefresh_race (st : BalSt) (pre post : List (Nat × Except WalletError Nat))
    (res : Except WalletError Nat)
    (hpre : ∀ q ∈ pre, q.1 ≠ st.gen) (hpost : ∀ q ∈ post, q.1 ≠ st.gen) :
    List.foldl stepResolveP st (pre ++ (st.gen, res) :: post) =
      stepResolve st st.gen res ∧
    ∀ g (a : Option String) (p : Bool), g ≤ st.gen → g ≠ (stepDeps st a p).gen := by
  constructor
  · rw [List.foldl_append, foldl_stale st pre hpre, List.foldl_cons]
    have h1 : stepResolveP st (st.gen, res) = stepResolve st st.gen res := rfl
    rw [h1]
    apply foldl_stale
    intro q hq
    rw [stepResolve_gen]
    exact hpost q hq
  · intro g a p hle
    rw [stepDeps_gen]
    omega

/-- Witness for balanceRefresh_race: a stale query resolving before and
another after the newest one leave only the newest result committed. -/
theorem balanceRefresh_race_witness :
    List.foldl stepResolveP balSt1 [(0, Except.ok 7), (1, Except.ok 5), (0, Except.ok 9)] =
      { balSt1 with balance := some (formatEther 5) } ∧
    (0 : Nat) ≠ (stepDeps balSt1 (some "0xnewer") true).gen := by
  have h := balanceRefresh_race balSt1 [(0, Except.ok 7)] [(0, Except.ok 9)] (Except.ok 5)
    (by intro q hq; simp at hq; subst hq; decide)
    (by intro q hq; simp at hq; subst hq; decide)
  exact ⟨h.1, h.2 0 (some "0xnewer") true (by decide)⟩

/-- Claim C9: connect clears lastError as its first step, so the result
never depends on a previously recorded error message, and both the
no-wallet exit and an authorization answer with an empty account list end
with lastError absent. -/
theorem connect_clears_prior_error (eth : Ethers) (w : Wallet) (s : Session) :
    connect eth w s = connect eth w { s with error := none } ∧
    (w.present = false → (connect eth w s).error = none) ∧
    (w.present = true → w.requestAccounts = .ok [] → (connect eth w s).error = none) := by
  refine ⟨rfl, ?_, ?_⟩
  · intro hp; simp [connect, hp]
  · intro hp hr; simp [connect, connectTry, hp, hr]

/-- Witness for connect_clears_prior_error on a Session holding a stale
error and a wallet-less environment. -/
theorem connect_clears_prior_error_witness :
    connect ethOk wAbsent sPrev = connect ethOk wAbsent { sPrev with error := none } ∧
    (connect ethOk wAbsent sPrev).error = none :=
  ⟨(connect_clears_prior_error ethOk wAbsent sPrev).1,
   (connect_clears_prior_error ethOk wAbsent sPrev).2.1 rfl⟩

/-- Claim C10, amended: a decimal balance string whose numeric value is
exactly zero is formatted as the single digit 0, not as the empty string:
the trimming removes the fractional part and the decimal point of the
0.000000 rendering but keeps the leading integer digit. -/
theorem formatNumber_zero (n : String) (d : DecNum)
    (h : strNum n = some d) (hz : d.mant = 0) :
    formatNumber n = "0" := by
  have hr : roundTo6 d = 0 := by
    unfold roundTo6
    rcases he : d.exp + 6 with k | k
    · simp [hz]
    · rw [hz]
      apply Nat.div_eq_of_lt
      have : 0 < 10 ^ (k + 1) := Nat.pos_pow_of_pos _ (by decide)
      omega
  unfold formatNumber
  rw [h]
  show trimTrail (toFixed6 d) = "0"
  unfold toFixed6
  rw [hz, hr]
  have hs : (d.neg && ((0 : Nat) != 0)) = false := by simp
  rw [hs]
  decide

/-- Witness for formatNumber_zero at the rendering of a zero balance. -/
theorem formatNumber_zero_witness :
    strNum "0.0" = some { neg := false, mant := 0, exp := -1 } ∧
    formatNumber "0.0" = "0" :=
  ⟨by decide, formatNumber_zero "0.0" { neg := false, mant := 0, exp := -1 } (by decide) rfl⟩

/-- Counterexample to claim C10 as stated: the balance string produced
for a zero balance has numeric value zero, yet the formatter returns the
digit 0, not the empty string. -/
theorem formatNumber_zero_cex :
    strNum (formatEther 0) = some { neg := false, mant := 0, exp := -1 } ∧
    formatNumber (formatEther 0) = "0" ∧
    formatNumber (formatEther 0) ≠ "" := by
  refine ⟨by decide, by decide, by decide⟩

end WalletApp
